import Mathlib

/-!
Shallow embedding of the network-transfer core of `TransferToHeadset.py`
(Blender add-on "Transfer to Headset", version 1.6).

Bytes are modelled as natural numbers (values 0–255), byte strings as
`List Nat`, and decoded Python strings as lists of Unicode code points
(`List Nat`).  Sockets, threads and the Blender host are modelled by
explicit environments that fix the outcome of each external call, and by
traces of the operations the code performs, tagged with the thread they
run on.
-/

namespace TransferToHeadset

/-- Big-endian encoding of `n` into exactly `w` bytes: the shallow
embedding of Python's `struct.pack` with formats `>I` (`w = 4`) and
`>Q` (`w = 8`) for in-range arguments. -/
def toBytesBE : Nat → Nat → List Nat
  | 0, _ => []
  | w + 1, n => (n / 256 ^ w) % 256 :: toBytesBE w n

/-- Big-endian interpretation of a byte string as a natural number. -/
def fromBytesBE (l : List Nat) : Nat :=
  l.foldl (fun a b => a * 256 + b) 0

/-- The wire message built at line 177 of `TransferToHeadset.py`:
`struct.pack('>I', name_length) + name_bytes + struct.pack('>Q', file_length) + file_data`.
`file_name` is already the UTF-8 byte string of the name (the source
computes `name_bytes = file_name.encode('utf-8')`).  `struct.pack`
raises `struct.error` when a length does not fit the format's range,
which is modelled by `none`. -/
def mkPacket (file_name file_data : List Nat) : Option (List Nat) :=
  if file_name.length < 2 ^ 32 ∧ file_data.length < 2 ^ 64 then
    some (toBytesBE 4 file_name.length ++ file_name ++
          toBytesBE 8 file_data.length ++ file_data)
  else none

/-- Strict UTF-8 decoding of a byte string to a list of Unicode code
points: the shallow embedding of Python's `bytes.decode('utf-8')`,
which rejects invalid start bytes, truncated sequences, overlong
encodings, surrogates and code points above U+10FFFF; `none` models the
raised `UnicodeDecodeError`. -/
def utf8Decode : List Nat → Option (List Nat)
  | [] => some []
  | [b] =>
    if b < 128 then some [b] else none
  | [b, b1] =>
    if b < 128 then (utf8Decode [b1]).map fun cs => b :: cs
    else if (194 ≤ b ∧ b ≤ 223) ∧ (128 ≤ b1 ∧ b1 ≤ 191) then
      some [(b - 192) * 64 + (b1 - 128)]
    else none
  | [b, b1, b2] =>
    if b < 128 then (utf8Decode [b1, b2]).map fun cs => b :: cs
    else if (194 ≤ b ∧ b ≤ 223) ∧ (128 ≤ b1 ∧ b1 ≤ 191) then
      (utf8Decode [b2]).map fun cs => ((b - 192) * 64 + (b1 - 128)) :: cs
    else if ((b = 224 ∧ 160 ≤ b1 ∧ b1 ≤ 191) ∨
             (225 ≤ b ∧ b ≤ 236 ∧ 128 ≤ b1 ∧ b1 ≤ 191) ∨
             (b = 237 ∧ 128 ≤ b1 ∧ b1 ≤ 159) ∨
             (238 ≤ b ∧ b ≤ 239 ∧ 128 ≤ b1 ∧ b1 ≤ 191)) ∧
            (128 ≤ b2 ∧ b2 ≤ 191) then
      some [(b - 224) * 4096 + (b1 - 128) * 64 + (b2 - 128)]
    else none
  | b :: b1 :: b2 :: b3 :: rest =>
    if b < 128 then (utf8Decode (b1 :: b2 :: b3 :: rest)).map fun cs => b :: cs
    else if (194 ≤ b ∧ b ≤ 223) ∧ (128 ≤ b1 ∧ b1 ≤ 191) then
      (utf8Decode (b2 :: b3 :: rest)).map fun cs =>
        ((b - 192) * 64 + (b1 - 128)) :: cs
    else if ((b = 224 ∧ 160 ≤ b1 ∧ b1 ≤ 191) ∨
             (225 ≤ b ∧ b ≤ 236 ∧ 128 ≤ b1 ∧ b1 ≤ 191) ∨
             (b = 237 ∧ 128 ≤ b1 ∧ b1 ≤ 159) ∨
             (238 ≤ b ∧ b ≤ 239 ∧ 128 ≤ b1 ∧ b1 ≤ 191)) ∧
            (128 ≤ b2 ∧ b2 ≤ 191) then
      (utf8Decode (b3 :: rest)).map fun cs =>
        ((b - 224) * 4096 + (b1 - 128) * 64 + (b2 - 128)) :: cs
    else if ((b = 240 ∧ 144 ≤ b1 ∧ b1 ≤ 191) ∨
             (241 ≤ b ∧ b ≤ 243 ∧ 128 ≤ b1 ∧ b1 ≤ 191) ∨
             (b = 244 ∧ 128 ≤ b1 ∧ b1 ≤ 143)) ∧
            (128 ≤ b2 ∧ b2 ≤ 191) ∧ (128 ≤ b3 ∧ b3 ≤ 191) then
      (utf8Decode rest).map fun cs =>
        ((b - 240) * 262144 + (b1 - 128) * 4096 + (b2 - 128) * 64 + (b3 - 128)) :: cs
    else none

/-- Code points of the literal `"Headset-Discovery-Response"` compared
against at line 156 of the source. -/
def discoveryResponseCodes : List Nat :=
  [72, 101, 97, 100, 115, 101, 116, 45, 68, 105, 115, 99, 111, 118, 101,
   114, 121, 45, 82, 101, 115, 112, 111, 110, 115, 101]

/-- Code points of the literal `"Success"` compared against at line 191
of the source. -/
def successCodes : List Nat := [83, 117, 99, 99, 101, 115, 115]

/-- ASCII whitespace characters removed by Python's `str.strip()`
(code points 9–13, 28–31 and 32). -/
def pyIsSpace (c : Nat) : Bool :=
  (9 ≤ c && c ≤ 13) || (28 ≤ c && c ≤ 32)

/-- `str.strip()` on the ASCII range: drop leading and trailing
whitespace. -/
def pyStrip (l : List Nat) : List Nat :=
  ((l.dropWhile pyIsSpace).reverse.dropWhile pyIsSpace).reverse

/-- `str.upper()` on the ASCII range: map `a`–`z` to `A`–`Z`, leave the
rest unchanged. -/
def pyUpper (l : List Nat) : List Nat :=
  l.map fun c => if 97 ≤ c ∧ c ≤ 122 then c - 32 else c

/-- The normalization `context.scene.headset_connection_code.strip().upper()`
performed at line 24 of the source. -/
def normalizeCode (l : List Nat) : List Nat :=
  pyUpper (pyStrip l)

example : toBytesBE 4 9 = [0, 0, 0, 9] := by decide
example : fromBytesBE [0, 0, 0, 0, 0, 0, 0, 10] = 10 := by decide
example : utf8Decode [72, 105] = some [72, 105] := by decide
example : utf8Decode [255] = none := by decide
example : utf8Decode [194, 128] = some [128] := by decide
example : normalizeCode [32, 97, 98, 49, 50, 10] = [65, 66, 49, 50] := by decide

/-! ### Hard-coded network constants of the source -/

/-- `port = 5000` (line 29): TCP transfer port. -/
def tcpPortDefault : Nat := 5000

/-- `discovery_port = 5001` (line 30): UDP discovery port. -/
def discoveryPortDefault : Nat := 5001

/-- `listen_port = 5002` (line 127): UDP response listen port. -/
def listenPortDefault : Nat := 5002

/-- `timeout = 5` (line 126): discovery timeout in seconds, also set as
the UDP socket timeout (line 131). -/
def discoveryTimeoutSecs : Nat := 5

/-- `sock.settimeout(30)` (line 182): TCP socket timeout in seconds. -/
def transferTimeoutSecs : Nat := 30

/-! ### Operation traces

Network calls, host-facing status reports (`self.report`), console
prints and thread creation, recorded in program order and tagged by the
thread they run on. -/

/-- A network call performed by the code (the call is recorded even
when it raises). -/
inductive NetOp where
  /-- `socket.bind` on the UDP socket, with its listen port and the
  socket timeout set just before it. -/
  | udpBind (port timeoutSecs : Nat)
  /-- `socket.sendto` of `payload` to the broadcast address on `port`. -/
  | udpSend (port : Nat) (payload : List Nat)
  /-- one `socket.recvfrom` call (possibly ending in `socket.timeout`). -/
  | udpRecv
  /-- `socket.connect` to the transfer port, with the socket timeout. -/
  | tcpConnect (port timeoutSecs : Nat)
  /-- `socket.sendall` of the framed packet. -/
  | tcpSend (payload : List Nat)
  /-- the single `socket.recv(1024)` acknowledgment read. -/
  | tcpRecv
deriving DecidableEq

/-- A host-facing status issued through `self.report` in `execute`. -/
inductive Report where
  | codeLengthError      -- "Connection code must be 4 characters."
  | discoveryError       -- "Could not discover headset on the network."
  | noSelectionError     -- "No objects selected."
  | activeObjectError    -- "Active object is not among the selected objects."
  | noDuplicatesError    -- "No duplicates created for export."
  | readFileError        -- "Error reading temporary file: ..."
  | transferStartedInfo  -- "Model transfer started to ...", the INFO report
deriving DecidableEq

/-- A console print of the transfer outcome by `send_data` (success at
line 192; any failure print: lines 194, 196, 198). -/
inductive ConsoleMsg where
  | successPrint
  | failingPrint
deriving DecidableEq

/-- One traced operation. -/
inductive Op where
  | net (o : NetOp)
  | report (r : Report)
  | consoleMsg (m : ConsoleMsg)
  | startThread
deriving DecidableEq

/-- Is the operation a network call? -/
def Op.isNet : Op → Bool
  | .net _ => true
  | _ => false

/-- Is the operation a host-facing report? -/
def Op.isReport : Op → Bool
  | .report _ => true
  | _ => false

/-- Is the operation a TCP network call? -/
def Op.isTcpNet : Op → Bool
  | .net (.tcpConnect _ _) => true
  | .net (.tcpSend _) => true
  | .net .tcpRecv => true
  | _ => false

/-- Is the operation a UDP network call? -/
def Op.isUdpNet : Op → Bool
  | .net (.udpBind _ _) => true
  | .net (.udpSend _ _) => true
  | .net .udpRecv => true
  | _ => false

/-- Is the operation a console print? -/
def Op.isConsole : Op → Bool
  | .consoleMsg _ => true
  | _ => false

/-! ### Discovery Resolver (`discover_headset`, lines 124–168) -/

/-- An inbound UDP datagram available to the discovery loop: its
arrival time in seconds counted from the start of the listen loop, its
payload bytes, and its sender address (`addr[0]`). -/
structure Datagram where
  arrival : Nat
  payload : List Nat
  sender : String
deriving DecidableEq

/-- Outcomes of the external calls made by `discover_headset`:
whether `sock.bind` raises, whether `sock.sendto` raises, and the
inbound datagrams in arrival order. -/
structure DiscoveryEnv where
  bindFails : Bool
  sendFails : Bool
  datagrams : List Datagram
deriving DecidableEq

/-- How `discover_headset` ends. -/
inductive DiscoveryResult where
  /-- a datagram decoded to `"Headset-Discovery-Response"`; its sender
  address is returned (line 159). -/
  | found (addr : String)
  /-- the `elapsed_time > timeout` check broke the loop (line 151). -/
  | timedOut
  /-- `socket.recvfrom` raised `socket.timeout` (line 160). -/
  | sockTimedOut
  /-- `data.decode('utf-8')` raised, caught at line 163, breaking the loop. -/
  | recvError
  /-- `sock.sendto` raised, caught at line 141; returns `None`. -/
  | sendFailed
  /-- `sock.bind` raised; the exception is not caught anywhere and
  propagates out of `discover_headset` and out of `execute`. -/
  | bindRaised
deriving DecidableEq

/-- Observable record of one `discover_headset` run. -/
structure DiscoveryRun where
  result : DiscoveryResult
  /-- number of `socket.recvfrom` calls performed. -/
  recvCount : Nat
  /-- time in seconds, from the start of the listen loop, at which the
  run ends. -/
  endTime : Nat
  /-- whether `sock.close()` was called before control left the function. -/
  socketClosed : Bool
  /-- the network calls performed, in order. -/
  netOps : List NetOp
deriving DecidableEq

/-- The listen loop of `discover_headset` (lines 147–165).  `t` is the
elapsed time at the top of the loop (`start_time` is 0), `cnt` the
number of `recvfrom` calls so far.  Each `recvfrom` waits at most
`discoveryTimeoutSecs` (the socket timeout); a pending datagram is
received at `max t d.arrival`.  The overall `elapsed_time > timeout`
check uses the fixed start time.  `netOps` is filled by the caller. -/
def discoverLoop : List Datagram → Nat → Nat → DiscoveryRun
  | [], t, cnt =>
    if discoveryTimeoutSecs < t then
      ⟨.timedOut, cnt, t, true, []⟩
    else
      ⟨.sockTimedOut, cnt + 1, t + discoveryTimeoutSecs, true, []⟩
  | d :: rest, t, cnt =>
    if discoveryTimeoutSecs < t then
      ⟨.timedOut, cnt, t, true, []⟩
    else if t + discoveryTimeoutSecs < d.arrival then
      ⟨.sockTimedOut, cnt + 1, t + discoveryTimeoutSecs, true, []⟩
    else
      match utf8Decode d.payload with
      | none => ⟨.recvError, cnt + 1, max t d.arrival, true, []⟩
      | some s =>
        if s = discoveryResponseCodes then
          ⟨.found d.sender, cnt + 1, max t d.arrival, true, []⟩
        else
          discoverLoop rest (max t d.arrival) (cnt + 1)

/-- `discover_headset(self, discovery_port, code)` (lines 124–168),
with the socket behaviour fixed by `env`.  The UDP socket is bound to
`listenPortDefault` with timeout `discoveryTimeoutSecs`; the code bytes
are broadcast on `discovery_port`; then the listen loop runs. -/
def discover_headset (discovery_port : Nat) (code : List Nat)
    (env : DiscoveryEnv) : DiscoveryRun :=
  if env.bindFails then
    ⟨.bindRaised, 0, 0, false, [.udpBind listenPortDefault discoveryTimeoutSecs]⟩
  else if env.sendFails then
    ⟨.sendFailed, 0, 0, true,
     [.udpBind listenPortDefault discoveryTimeoutSecs, .udpSend discovery_port code]⟩
  else
    let r := discoverLoop env.datagrams 0 0
    { r with
      netOps := .udpBind listenPortDefault discoveryTimeoutSecs ::
                .udpSend discovery_port code ::
                List.replicate r.recvCount .udpRecv }

/-! ### Transfer Client (`send_data`, lines 170–198) -/

/-- Outcomes of the external calls made by `send_data`: whether
`sock.connect` returns, whether `sock.sendall` returns, and what the
single `sock.recv(1024)` yields (`none` models a raised exception,
e.g. `socket.timeout`). -/
structure SendEnv where
  connectOk : Bool
  sendOk : Bool
  recv : Option (List Nat)
deriving DecidableEq

/-- How `send_data` ends. -/
inductive SendOutcome where
  /-- the acknowledgment decoded to `"Success"` (line 192). -/
  | ackSuccess
  /-- the acknowledgment decoded to something else (line 194). -/
  | ackMismatch
  /-- `response.decode('utf-8')` raised; caught at line 197. -/
  | decodeRaised
  /-- `sock.connect` raised; caught at line 195 or 197. -/
  | connectRaised
  /-- `sock.sendall` raised; caught at line 195 or 197. -/
  | sendRaised
  /-- `sock.recv` raised; caught at line 195 or 197. -/
  | recvRaised
  /-- `struct.pack` raised at line 177, before the `try` block: the
  exception is uncaught and kills the worker thread. -/
  | packRaised
deriving DecidableEq

/-- Observable record of one `send_data` run. -/
structure SendRun where
  outcome : SendOutcome
  /-- whether the TCP socket object was created (line 181). -/
  socketCreated : Bool
  /-- whether `sock.close()` (line 190) was executed. -/
  socketClosed : Bool
  /-- the operations performed, in order. -/
  ops : List Op
deriving DecidableEq

/-- `send_data(self, file_data, file_name, headset_ip, port)`
(lines 170–198), with the socket behaviour fixed by `env`.  The packet
is built first (lines 172–177); the socket work is inside a
`try`/`except` whose handlers only print; `sock.close()` (line 190)
runs only on the path where connect, sendall and recv all returned. -/
def send_data (file_data file_name : List Nat) (headset_ip : String)
    (port : Nat) (env : SendEnv) : SendRun :=
  match mkPacket file_name file_data with
  | none => ⟨.packRaised, false, false, []⟩
  | some packet =>
    if env.connectOk then
      if env.sendOk then
        match env.recv with
        | some resp =>
          match utf8Decode resp with
          | some s =>
            if s = successCodes then
              ⟨.ackSuccess, true, true,
               [.net (.tcpConnect port transferTimeoutSecs),
                .net (.tcpSend packet), .net .tcpRecv,
                .consoleMsg .successPrint]⟩
            else
              ⟨.ackMismatch, true, true,
               [.net (.tcpConnect port transferTimeoutSecs),
                .net (.tcpSend packet), .net .tcpRecv,
                .consoleMsg .failingPrint]⟩
          | none =>
            ⟨.decodeRaised, true, true,
             [.net (.tcpConnect port transferTimeoutSecs),
              .net (.tcpSend packet), .net .tcpRecv,
              .consoleMsg .failingPrint]⟩
        | none =>
          ⟨.recvRaised, true, false,
           [.net (.tcpConnect port transferTimeoutSecs),
            .net (.tcpSend packet), .net .tcpRecv,
            .consoleMsg .failingPrint]⟩
      else
        ⟨.sendRaised, true, false,
         [.net (.tcpConnect port transferTimeoutSecs),
          .net (.tcpSend packet), .consoleMsg .failingPrint]⟩
    else
      ⟨.connectRaised, true, false,
       [.net (.tcpConnect port transferTimeoutSecs),
        .consoleMsg .failingPrint]⟩

/-! ### Transfer Orchestrator (`execute`, lines 23–122) -/

/-- The add-on preferences class (lines 224–237).  Its `port` and
`discovery_port` properties default to 5000 and 5001; `execute` never
reads them. -/
structure TransferToHeadsetPreferences where
  port : Nat
  discovery_port : Nat
deriving DecidableEq

/-- Preferences with their declared default values. -/
def defaultPrefs : TransferToHeadsetPreferences := ⟨5000, 5001⟩

/-- Host-supplied state and external-call outcomes for one `execute`
invocation.  Selected objects and the active object are abstract
identities; `file_name` and `file_data` are the byte strings the
out-of-scope export glue hands to the network core. -/
structure ExecuteInput where
  /-- `context.scene.headset_connection_code`, as code points. -/
  headset_connection_code : List Nat
  /-- `context.selected_objects`, as abstract object identities. -/
  selected_objects : List Nat
  /-- `context.view_layer.objects.active` (`none` models Python `None`). -/
  active_object : Option Nat
  /-- the exported file name (`safe_name + ".glb"`), as UTF-8 bytes. -/
  file_name : List Nat
  /-- the exported GLB bytes read back from the temporary file. -/
  file_data : List Nat
  /-- glue outcome: the duplicate list built at lines 57–74 is empty. -/
  duplicatesEmpty : Bool
  /-- glue outcome: reading the temporary file (line 109) raises. -/
  readFails : Bool
  denv : DiscoveryEnv
  tenv : SendEnv
deriving DecidableEq

/-- The operator's return status: `{'FINISHED'}`, `{'CANCELLED'}`, or
an exception propagating out of `execute` into the host. -/
inductive ExecStatus where
  | finished
  | cancelled
  | raised
deriving DecidableEq

/-- Observable record of one `execute` invocation: its status, the
operations performed on the caller's (UI) thread in order, and the
operations performed on the spawned worker thread (empty when no
thread is started). -/
structure ExecResult where
  status : ExecStatus
  mainOps : List Op
  workerOps : List Op
deriving DecidableEq

/-- All operations of the run, main-thread ops first. -/
def ExecResult.allOps (r : ExecResult) : List Op :=
  r.mainOps ++ r.workerOps

/-- `execute(self, context)` (lines 23–122).  The pairing code is
normalized and checked first; discovery runs synchronously on the
caller's thread with the hard-coded ports; a falsy (`None` or empty)
address reports a discovery error; then the selection and
active-object validations, the duplicate/export glue and the file
read; finally `send_data` is started on a new worker thread and the
INFO report is issued. -/
def execute (prefs : TransferToHeadsetPreferences) (inp : ExecuteInput) :
    ExecResult :=
  let code := normalizeCode inp.headset_connection_code
  if code.length ≠ 4 then
    ⟨.cancelled, [.report .codeLengthError], []⟩
  else
    let d := discover_headset discoveryPortDefault code inp.denv
    let dOps := d.netOps.map Op.net
    match d.result with
    | .bindRaised => ⟨.raised, dOps, []⟩
    | .found headset_ip =>
      if headset_ip = "" then
        ⟨.cancelled, dOps ++ [.report .discoveryError], []⟩
      else if inp.selected_objects.isEmpty then
        ⟨.cancelled, dOps ++ [.report .noSelectionError], []⟩
      else
        match inp.active_object with
        | none => ⟨.cancelled, dOps ++ [.report .activeObjectError], []⟩
        | some a =>
          if inp.selected_objects.contains a then
            if inp.duplicatesEmpty then
              ⟨.cancelled, dOps ++ [.report .noDuplicatesError], []⟩
            else if inp.readFails then
              ⟨.cancelled, dOps ++ [.report .readFileError], []⟩
            else
              ⟨.finished,
               dOps ++ [.startThread, .report .transferStartedInfo],
               (send_data inp.file_data inp.file_name headset_ip
                 tcpPortDefault inp.tenv).ops⟩
          else
            ⟨.cancelled, dOps ++ [.report .activeObjectError], []⟩
    | _ => ⟨.cancelled, dOps ++ [.report .discoveryError], []⟩

/-! ### Lemmas about the framing codec -/

lemma toBytesBE_length (w n : Nat) : (toBytesBE w n).length = w := by
  induction w generalizing n with
  | zero => rfl
  | succ w ih => simp [toBytesBE, ih]

lemma foldl_toBytesBE (w : Nat) : ∀ a n : Nat,
    List.foldl (fun a b => a * 256 + b) a (toBytesBE w n) =
      a * 256 ^ w + n % 256 ^ w := by
  induction w with
  | zero => intro a n; simp [toBytesBE, Nat.mod_one]
  | succ w ih =>
    intro a n
    simp only [toBytesBE, List.foldl_cons]
    rw [ih]
    have h : (256 : Nat) ^ (w + 1) = 256 ^ w * 256 := by ring
    rw [h, Nat.mod_mul]
    ring

/-- Round trip: the big-endian bytes of an in-range value decode back
to it, so the length prefixes written by `mkPacket` really carry the
lengths. -/
lemma fromBytesBE_toBytesBE (w n : Nat) (h : n < 256 ^ w) :
    fromBytesBE (toBytesBE w n) = n := by
  unfold fromBytesBE
  rw [foldl_toBytesBE]
  simp [Nat.mod_eq_of_lt h]

/-! ### Lemmas about strict UTF-8 decoding of ASCII text -/

/-- Inversion for decoding to an ASCII head: the first byte must be
the code point itself (multi-byte sequences produce a code point
≥ 128 and overlong encodings are rejected). -/
lemma utf8Decode_ascii_head (l cs : List Nat) (c : Nat) (hc : c < 128)
    (h : utf8Decode l = some (c :: cs)) :
    l.head? = some c ∧ utf8Decode l.tail = some cs := by
  obtain _ | ⟨b, _ | ⟨b1, _ | ⟨b2, _ | ⟨b3, rest⟩⟩⟩⟩ := l
  · rw [utf8Decode.eq_def] at h
    simp at h
  · rw [utf8Decode.eq_def] at h
    dsimp only at h
    split at h
    · simp only [Option.some.injEq, List.cons.injEq] at h
      obtain ⟨rfl, rfl⟩ := h
      exact ⟨rfl, rfl⟩
    · simp at h
  · rw [utf8Decode.eq_def] at h
    dsimp only at h
    split at h
    · rw [Option.map_eq_some'] at h
      obtain ⟨cs', hdec, hcons⟩ := h
      injection hcons with e1 e2
      subst e1; subst e2
      exact ⟨rfl, hdec⟩
    · split at h
      · simp only [Option.some.injEq, List.cons.injEq] at h
        obtain ⟨e1, e2⟩ := h
        omega
      · simp at h
  · rw [utf8Decode.eq_def] at h
    dsimp only at h
    split at h
    · rw [Option.map_eq_some'] at h
      obtain ⟨cs', hdec, hcons⟩ := h
      injection hcons with e1 e2
      subst e1; subst e2
      exact ⟨rfl, hdec⟩
    · split at h
      · rw [Option.map_eq_some'] at h
        obtain ⟨cs', hdec, hcons⟩ := h
        injection hcons with e1 e2
        omega
      · split at h
        · simp only [Option.some.injEq, List.cons.injEq] at h
          obtain ⟨e1, e2⟩ := h
          omega
        · simp at h
  · rw [utf8Decode.eq_def] at h
    dsimp only at h
    split at h
    · rw [Option.map_eq_some'] at h
      obtain ⟨cs', hdec, hcons⟩ := h
      injection hcons with e1 e2
      subst e1; subst e2
      exact ⟨rfl, hdec⟩
    · split at h
      · rw [Option.map_eq_some'] at h
        obtain ⟨cs', hdec, hcons⟩ := h
        injection hcons with e1 e2
        omega
      · split at h
        · rw [Option.map_eq_some'] at h
          obtain ⟨cs', hdec, hcons⟩ := h
          injection hcons with e1 e2
          omega
        · split at h
          · rw [Option.map_eq_some'] at h
            obtain ⟨cs', hdec, hcons⟩ := h
            injection hcons with e1 e2
            omega
          · simp at h

/-- Decoding to the empty code-point list succeeds only on the empty
byte string. -/
lemma utf8Decode_nil_inv (l : List Nat) (h : utf8Decode l = some []) :
    l = [] := by
  obtain _ | ⟨b, _ | ⟨b1, _ | ⟨b2, _ | ⟨b3, rest⟩⟩⟩⟩ := l
  · rfl
  all_goals rw [utf8Decode.eq_def] at h
  all_goals dsimp only at h
  all_goals try split at h
  all_goals try split at h
  all_goals try split at h
  all_goals simp [Option.map_eq_some'] at h

/-- If a byte string strictly UTF-8 decodes to pure ASCII code points,
the byte string is that code-point list itself. -/
lemma utf8Decode_ascii_eq : ∀ cs l : List Nat,
    (∀ c ∈ cs, c < 128) → utf8Decode l = some cs → l = cs := by
  intro cs
  induction cs with
  | nil => exact fun l _ h => utf8Decode_nil_inv l h
  | cons c cs ih =>
    intro l hcs h
    obtain ⟨h1, h2⟩ :=
      utf8Decode_ascii_head l cs c (hcs c (by simp)) h
    obtain _ | ⟨b, rest⟩ := l
    · exact absurd h1 (by simp)
    · simp only [List.head?_cons, Option.some.injEq] at h1
      simp only [List.tail_cons] at h2
      rw [h1, ih rest (fun x hx => hcs x (by simp [hx])) h2]

/-- A pure-ASCII byte string strictly UTF-8 decodes to itself. -/
lemma utf8Decode_ascii_self : ∀ l : List Nat,
    (∀ c ∈ l, c < 128) → utf8Decode l = some l := by
  intro l
  induction l with
  | nil => intro _; rfl
  | cons b rest ih =>
    intro hl
    have hb : b < 128 := hl b (by simp)
    have ht : utf8Decode rest = some rest :=
      ih fun c hc => hl c (by simp [hc])
    obtain _ | ⟨b1, _ | ⟨b2, _ | ⟨b3, rest3⟩⟩⟩ := rest <;>
      rw [utf8Decode.eq_def] <;> dsimp only <;> rw [if_pos hb] <;>
      simp [ht]

/-- For pure-ASCII targets, strict UTF-8 decoding succeeds exactly on
the identical byte string. -/
lemma utf8Decode_ascii_iff (l cs : List Nat) (hcs : ∀ c ∈ cs, c < 128) :
    utf8Decode l = some cs ↔ l = cs := by
  constructor
  · exact utf8Decode_ascii_eq cs l hcs
  · rintro rfl
    exact utf8Decode_ascii_self l hcs

/-! ## Claim C1 -/

/-- C1: for every file name (as its UTF-8 bytes) and payload, the
encoded transfer message is exactly the 4-byte big-endian byte length
of the name, the name bytes, the 8-byte big-endian byte length of the
payload, and the payload bytes, in that order. -/
theorem C1_packet_layout (file_name file_data : List Nat)
    (hn : file_name.length < 2 ^ 32) (hp : file_data.length < 2 ^ 64) :
    mkPacket file_name file_data =
      some (toBytesBE 4 file_name.length ++ file_name ++
            toBytesBE 8 file_data.length ++ file_data) ∧
    (toBytesBE 4 file_name.length ++ file_name ++
      toBytesBE 8 file_data.length ++ file_data).length =
      4 + file_name.length + 8 + file_data.length ∧
    (toBytesBE 4 file_name.length).length = 4 ∧
    fromBytesBE (toBytesBE 4 file_name.length) = file_name.length ∧
    (toBytesBE 8 file_data.length).length = 8 ∧
    fromBytesBE (toBytesBE 8 file_data.length) = file_data.length := by
  refine ⟨?_, ?_, toBytesBE_length 4 _, ?_, toBytesBE_length 8 _, ?_⟩
  · rw [mkPacket, if_pos]
    exact ⟨hn, hp⟩
  · simp [toBytesBE_length]
    omega
  · exact fromBytesBE_toBytesBE 4 _ (by norm_num at hn ⊢; omega)
  · exact fromBytesBE_toBytesBE 8 _ (by norm_num at hp ⊢; omega)

/-- File name bytes of `"Chair.glb"` (9 bytes). -/
def chairNameBytes : List Nat := [67, 104, 97, 105, 114, 46, 103, 108, 98]

/-- A concrete 10-byte payload. -/
def chairPayload : List Nat := [0, 1, 2, 3, 4, 5, 6, 7, 8, 9]

/-- Witness for C1 at `"Chair.glb"` and a 10-byte payload, together
with the concrete message facts: 31 bytes total, first four bytes
big-endian 9, bytes 14–21 (1-indexed) big-endian 10. -/
theorem C1_packet_layout_witness :
    (mkPacket chairNameBytes chairPayload =
       some (toBytesBE 4 chairNameBytes.length ++ chairNameBytes ++
             toBytesBE 8 chairPayload.length ++ chairPayload) ∧
     (toBytesBE 4 chairNameBytes.length ++ chairNameBytes ++
       toBytesBE 8 chairPayload.length ++ chairPayload).length =
       4 + chairNameBytes.length + 8 + chairPayload.length ∧
     (toBytesBE 4 chairNameBytes.length).length = 4 ∧
     fromBytesBE (toBytesBE 4 chairNameBytes.length) = chairNameBytes.length ∧
     (toBytesBE 8 chairPayload.length).length = 8 ∧
     fromBytesBE (toBytesBE 8 chairPayload.length) = chairPayload.length) ∧
    mkPacket chairNameBytes chairPayload =
      some [0, 0, 0, 9, 67, 104, 97, 105, 114, 46, 103, 108, 98,
            0, 0, 0, 0, 0, 0, 0, 10, 0, 1, 2, 3, 4, 5, 6, 7, 8, 9] ∧
    (mkPacket chairNameBytes chairPayload).map List.length = some 31 ∧
    (mkPacket chairNameBytes chairPayload).map (List.take 4) =
      some [0, 0, 0, 9] ∧
    (mkPacket chairNameBytes chairPayload).map (fun m => (m.drop 13).take 8) =
      some [0, 0, 0, 0, 0, 0, 0, 10] :=
  ⟨C1_packet_layout chairNameBytes chairPayload (by decide) (by decide),
   by decide, by decide, by decide, by decide⟩

/-! ## Helper lemmas about the discovery loop -/

/-- If every pending datagram decodes to valid UTF-8 text different
from the discovery response, the listen loop ends in a timeout (either
the overall elapsed-time check or the socket timeout), not before the
timeout window has elapsed, with the socket closed. -/
lemma discoverLoop_nonmatching : ∀ (ds : List Datagram) (t cnt : Nat),
    (∀ d ∈ ds, ∃ s, utf8Decode d.payload = some s ∧
       s ≠ discoveryResponseCodes) →
    ((discoverLoop ds t cnt).result = .timedOut ∨
     (discoverLoop ds t cnt).result = .sockTimedOut) ∧
    discoveryTimeoutSecs ≤ (discoverLoop ds t cnt).endTime ∧
    (discoverLoop ds t cnt).socketClosed = true := by
  intro ds
  induction ds with
  | nil =>
    intro t cnt _
    simp only [discoverLoop]
    split
    · exact ⟨Or.inl rfl, by dsimp only; omega, rfl⟩
    · exact ⟨Or.inr rfl, by dsimp only; omega, rfl⟩
  | cons d rest ih =>
    intro t cnt hnm
    simp only [discoverLoop]
    split
    · exact ⟨Or.inl rfl, by dsimp only; omega, rfl⟩
    · split
      · exact ⟨Or.inr rfl, by dsimp only; omega, rfl⟩
      · obtain ⟨s, hs, hne⟩ := hnm d (by simp)
        rw [hs]
        dsimp only
        rw [if_neg hne]
        exact ih (max t d.arrival) (cnt + 1) fun d' hd' => hnm d' (by simp [hd'])

/-! ## Claim C3 -/

/-- C3 counterexample: a datagram whose payload is not valid UTF-8 is
not silently ignored — the decode exception breaks the listen loop at
time 1, before the 5-second timeout window has elapsed, and the run
ends with a receive error rather than a timeout. -/
theorem C3_cex_non_utf8_datagram_aborts :
    ([255] : List Nat) ≠ discoveryResponseCodes ∧
    (discover_headset 5001 [65, 66, 49, 50]
       ⟨false, false, [⟨1, [255], "10.0.0.9"⟩]⟩).result =
      DiscoveryResult.recvError ∧
    (discover_headset 5001 [65, 66, 49, 50]
       ⟨false, false, [⟨1, [255], "10.0.0.9"⟩]⟩).endTime = 1 ∧
    (discover_headset 5001 [65, 66, 49, 50]
       ⟨false, false, [⟨1, [255], "10.0.0.9"⟩]⟩).endTime <
      discoveryTimeoutSecs := by decide

/-- C3 (amended): when bind and send succeed and every inbound
datagram decodes to valid UTF-8 text different from
`"Headset-Discovery-Response"`, each datagram is ignored against the
unrestarted clock and discovery fails with a timeout at or after the
full timeout window, never returning an address; the socket is
closed. -/
theorem C3_nonmatching_times_out (discovery_port : Nat) (code : List Nat)
    (env : DiscoveryEnv) (hb : env.bindFails = false)
    (hs : env.sendFails = false)
    (h : ∀ d ∈ env.datagrams, ∃ s, utf8Decode d.payload = some s ∧
           s ≠ discoveryResponseCodes) :
    ((discover_headset discovery_port code env).result = .timedOut ∨
     (discover_headset discovery_port code env).result = .sockTimedOut) ∧
    discoveryTimeoutSecs ≤ (discover_headset discovery_port code env).endTime ∧
    (discover_headset discovery_port code env).socketClosed = true := by
  rw [discover_headset, if_neg (by simp [hb]), if_neg (by simp [hs])]
  exact discoverLoop_nonmatching env.datagrams 0 0 h

/-- Witness for the amended C3: a single non-matching ASCII datagram
(`"A"` at second 2) is ignored and discovery times out. -/
theorem C3_nonmatching_times_out_witness :
    ((discover_headset 5001 [65, 66, 49, 50]
        ⟨false, false, [⟨2, [65], "10.0.0.9"⟩]⟩).result = .timedOut ∨
     (discover_headset 5001 [65, 66, 49, 50]
        ⟨false, false, [⟨2, [65], "10.0.0.9"⟩]⟩).result = .sockTimedOut) ∧
    discoveryTimeoutSecs ≤
      (discover_headset 5001 [65, 66, 49, 50]
        ⟨false, false, [⟨2, [65], "10.0.0.9"⟩]⟩).endTime ∧
    (discover_headset 5001 [65, 66, 49, 50]
       ⟨false, false, [⟨2, [65], "10.0.0.9"⟩]⟩).socketClosed = true :=
  C3_nonmatching_times_out 5001 [65, 66, 49, 50]
    ⟨false, false, [⟨2, [65], "10.0.0.9"⟩]⟩ rfl rfl
    (by
      intro d hd
      simp only [List.mem_singleton] at hd
      subst hd
      exact ⟨[65], by decide, by decide⟩)

/-! ## Claim C4 -/

/-- C4: if the first inbound datagram (arriving within the socket
timeout) decodes exactly to `"Headset-Discovery-Response"`, discovery
succeeds with that datagram's sender address, the socket is closed,
and exactly one receive is performed. -/
theorem C4_first_datagram_wins (discovery_port : Nat) (code : List Nat)
    (env : DiscoveryEnv) (d : Datagram) (rest : List Datagram)
    (hb : env.bindFails = false) (hs : env.sendFails = false)
    (hds : env.datagrams = d :: rest)
    (hpl : utf8Decode d.payload = some discoveryResponseCodes)
    (ht : d.arrival ≤ discoveryTimeoutSecs) :
    discover_headset discovery_port code env =
      ⟨.found d.sender, 1, d.arrival, true,
       [.udpBind listenPortDefault discoveryTimeoutSecs,
        .udpSend discovery_port code, .udpRecv]⟩ := by
  rw [discover_headset, if_neg (by simp [hb]), if_neg (by simp [hs])]
  dsimp only
  rw [hds]
  simp only [discoverLoop]
  rw [if_neg (by omega), if_neg (by omega), hpl]
  dsimp only
  rw [if_pos rfl]
  simp [Nat.zero_max]

/-- Witness for C4: a matching response from `192.168.1.42` at second
2, followed by a second (ignored because never received) datagram. -/
theorem C4_first_datagram_wins_witness :
    discover_headset 5001 [65, 66, 49, 50]
      ⟨false, false,
       [⟨2, discoveryResponseCodes, "192.168.1.42"⟩,
        ⟨3, [66], "10.0.0.8"⟩]⟩ =
      ⟨.found "192.168.1.42", 1, 2, true,
       [.udpBind listenPortDefault discoveryTimeoutSecs,
        .udpSend 5001 [65, 66, 49, 50], .udpRecv]⟩ :=
  C4_first_datagram_wins 5001 [65, 66, 49, 50]
    ⟨false, false,
     [⟨2, discoveryResponseCodes, "192.168.1.42"⟩, ⟨3, [66], "10.0.0.8"⟩]⟩
    ⟨2, discoveryResponseCodes, "192.168.1.42"⟩ [⟨3, [66], "10.0.0.8"⟩]
    rfl rfl rfl (by decide) (by decide)

/-! ## Claim C8 -/

/-- C8 counterexample: when `sock.bind` raises, discovery does not
fail with a network-error result — the exception is uncaught, the UDP
socket is left unclosed, and the whole operator invocation raises out
of `execute` with no error status reported to the host. -/
theorem C8_cex_bind_failure_raises :
    (discover_headset 5001 [65, 66, 49, 50] ⟨true, false, []⟩).result =
      DiscoveryResult.bindRaised ∧
    (discover_headset 5001 [65, 66, 49, 50] ⟨true, false, []⟩).socketClosed =
      false ∧
    (execute defaultPrefs
      ⟨[65, 66, 49, 50], [1], some 1, [65], [0], false, false,
       ⟨true, false, []⟩, ⟨true, true, some successCodes⟩⟩).status =
      ExecStatus.raised ∧
    (execute defaultPrefs
      ⟨[65, 66, 49, 50], [1], some 1, [65], [0], false, false,
       ⟨true, false, []⟩, ⟨true, true, some successCodes⟩⟩).allOps.countP
      Op.isReport = 0 := by decide

/-- C8 (amended): a send failure fails immediately — no receive is
performed, none of the timeout budget is consumed, the socket is
closed, and no address is returned; a bind failure instead raises an
uncaught exception out of the resolver (also consuming none of the
timeout budget), leaving the socket unclosed. -/
theorem C8_send_fails_fast_bind_raises (discovery_port : Nat)
    (code : List Nat) (env : DiscoveryEnv) :
    (env.bindFails = true →
       discover_headset discovery_port code env =
         ⟨.bindRaised, 0, 0, false,
          [.udpBind listenPortDefault discoveryTimeoutSecs]⟩) ∧
    (env.bindFails = false → env.sendFails = true →
       discover_headset discovery_port code env =
         ⟨.sendFailed, 0, 0, true,
          [.udpBind listenPortDefault discoveryTimeoutSecs,
           .udpSend discovery_port code]⟩) := by
  constructor
  · intro hb
    rw [discover_headset, if_pos (by simp [hb])]
  · intro hb hs
    rw [discover_headset, if_neg (by simp [hb]), if_pos (by simp [hs])]

/-- Witness for the amended C8 at concrete environments. -/
theorem C8_send_fails_fast_bind_raises_witness :
    discover_headset 5001 [65, 66, 49, 50] ⟨true, false, []⟩ =
      ⟨.bindRaised, 0, 0, false,
       [.udpBind listenPortDefault discoveryTimeoutSecs]⟩ ∧
    discover_headset 5001 [65, 66, 49, 50] ⟨false, true, []⟩ =
      ⟨.sendFailed, 0, 0, true,
       [.udpBind listenPortDefault discoveryTimeoutSecs,
        .udpSend 5001 [65, 66, 49, 50]]⟩ :=
  ⟨(C8_send_fails_fast_bind_raises 5001 [65, 66, 49, 50]
      ⟨true, false, []⟩).1 rfl,
   (C8_send_fails_fast_bind_raises 5001 [65, 66, 49, 50]
      ⟨false, true, []⟩).2 rfl rfl⟩

/-! ## Claim C5 -/

/-- C5: given that connect and sendall succeeded and the single
acknowledgment read returned `resp`, the outcome is Success exactly
when `resp` is the UTF-8 bytes of the literal `"Success"`; anything
else — the empty byte string, `"Error"`, or non-UTF-8 bytes — is a
failure. -/
theorem C5_ack_success_iff (file_data file_name : List Nat)
    (headset_ip : String) (port : Nat) (env : SendEnv) (resp : List Nat)
    (hpk : (mkPacket file_name file_data).isSome = true)
    (hc : env.connectOk = true) (hs : env.sendOk = true)
    (hr : env.recv = some resp) :
    (send_data file_data file_name headset_ip port env).outcome =
      SendOutcome.ackSuccess ↔ resp = successCodes := by
  obtain ⟨packet, hp⟩ := Option.isSome_iff_exists.mp hpk
  simp only [send_data]
  rw [hp]
  dsimp only
  rw [if_pos hc, if_pos hs, hr]
  dsimp only
  constructor
  · intro hout
    cases hd : utf8Decode resp with
    | none =>
      rw [hd] at hout
      simp at hout
    | some s =>
      rw [hd] at hout
      dsimp only at hout
      by_cases hse : s = successCodes
      · subst hse
        exact utf8Decode_ascii_eq successCodes resp (by decide) hd
      · rw [if_neg hse] at hout
        simp at hout
  · rintro rfl
    rw [utf8Decode_ascii_self successCodes (by decide)]
    dsimp only
    rw [if_pos rfl]

/-- Witness for C5: `b"Success"` is accepted; `b""`, `b"Error"` and
the non-UTF-8 acknowledgment `b"\\xff"` are failures. -/
theorem C5_ack_success_iff_witness :
    (send_data [0] [65] "192.168.1.42" 5000
       ⟨true, true, some successCodes⟩).outcome = SendOutcome.ackSuccess ∧
    (send_data [0] [65] "192.168.1.42" 5000
       ⟨true, true, some []⟩).outcome ≠ SendOutcome.ackSuccess ∧
    (send_data [0] [65] "192.168.1.42" 5000
       ⟨true, true, some [69, 114, 114, 111, 114]⟩).outcome ≠
      SendOutcome.ackSuccess ∧
    (send_data [0] [65] "192.168.1.42" 5000
       ⟨true, true, some [255]⟩).outcome ≠ SendOutcome.ackSuccess :=
  ⟨(C5_ack_success_iff [0] [65] "192.168.1.42" 5000
      ⟨true, true, some successCodes⟩ successCodes
      (by decide) rfl rfl rfl).mpr rfl,
   by decide, by decide, by decide⟩

/-! ## Claim C6 -/

/-- C6 counterexample: when `sock.connect` raises, the exception
handlers only print — the TCP socket created at line 181 is never
closed before `send_data` returns. -/
theorem C6_cex_connect_failure_leaks_socket :
    (send_data [0] [65] "10.0.0.7" 5000
       ⟨false, true, some successCodes⟩).socketCreated = true ∧
    (send_data [0] [65] "10.0.0.7" 5000
       ⟨false, true, some successCodes⟩).socketClosed = false := by decide

/-- C6 (amended): `sock.close()` runs exactly on the runs where
connect, sendall and the acknowledgment read all return (whatever the
acknowledgment content, including one that fails to decode); when
connect, sendall or the read raises, the socket — created whenever the
packet was built — is left unclosed when the client returns. -/
theorem C6_socket_closed_iff (file_data file_name : List Nat)
    (headset_ip : String) (port : Nat) (env : SendEnv) :
    (send_data file_data file_name headset_ip port env).socketClosed =
      ((mkPacket file_name file_data).isSome && env.connectOk &&
        env.sendOk && env.recv.isSome) ∧
    (send_data file_data file_name headset_ip port env).socketCreated =
      (mkPacket file_name file_data).isSome := by
  simp only [send_data]
  cases hp : mkPacket file_name file_data with
  | none => simp
  | some packet =>
    dsimp only
    cases hc : env.connectOk
    · simp
    · cases hs : env.sendOk
      · simp
      · cases hr : env.recv with
        | none => simp
        | some resp =>
          dsimp only
          cases hd : utf8Decode resp with
          | none => simp
          | some s =>
            by_cases hse : s = successCodes <;> simp [hse]

/-! ## Helper lemmas about the traces of `discover_headset` and `send_data` -/

/-- Is the operation a host report from the spec's terminal set
{started, discovery-failed, transfer-succeeded, transfer-failed}?  In
the code's report vocabulary only the first two exist. -/
def isTerminalReport : Op → Bool
  | .report .transferStartedInfo => true
  | .report .discoveryError => true
  | _ => false

/-- Every network call of `discover_headset` is the UDP bind, the UDP
broadcast, or a UDP receive. -/
lemma discover_headset_netOps_mem (discovery_port : Nat) (code : List Nat)
    (env : DiscoveryEnv) :
    ∀ o ∈ (discover_headset discovery_port code env).netOps,
      o = NetOp.udpBind listenPortDefault discoveryTimeoutSecs ∨
      o = NetOp.udpSend discovery_port code ∨ o = NetOp.udpRecv := by
  rw [discover_headset]
  split
  · simp
  · split
    · simp
    · dsimp only
      intro o ho
      simp only [List.mem_cons] at ho
      rcases ho with rfl | rfl | ho
      · exact Or.inl rfl
      · exact Or.inr (Or.inl rfl)
      · exact Or.inr (Or.inr (List.eq_of_mem_replicate ho))

/-- A predicate that is false on all network operations counts zero
occurrences in the discovery trace. -/
lemma countP_map_net_eq_zero (l : List NetOp) (p : Op → Bool)
    (hp : ∀ n : NetOp, p (Op.net n) = false) :
    (l.map Op.net).countP p = 0 := by
  rw [List.countP_eq_zero]
  intro o ho
  rw [List.mem_map] at ho
  obtain ⟨n, _, rfl⟩ := ho
  simp [hp n]

/-- No TCP network call appears in the discovery trace. -/
lemma dOps_countP_tcp_eq_zero (discovery_port : Nat) (code : List Nat)
    (env : DiscoveryEnv) :
    ((discover_headset discovery_port code env).netOps.map Op.net).countP
      Op.isTcpNet = 0 := by
  rw [List.countP_eq_zero]
  intro o ho
  rw [List.mem_map] at ho
  obtain ⟨n, hn, rfl⟩ := ho
  rcases discover_headset_netOps_mem discovery_port code env n hn with
    rfl | rfl | rfl <;> simp [Op.isTcpNet]

/-- Every operation of the discovery trace is a non-TCP operation. -/
lemma dOps_all_not_tcp (discovery_port : Nat) (code : List Nat)
    (env : DiscoveryEnv) :
    (((discover_headset discovery_port code env).netOps.map Op.net).all
      fun o => !(Op.isTcpNet o)) = true := by
  rw [List.all_eq_true]
  intro o ho
  rw [List.mem_map] at ho
  obtain ⟨n, hn, rfl⟩ := ho
  rcases discover_headset_netOps_mem discovery_port code env n hn with
    rfl | rfl | rfl <;> rfl

/-- The worker trace of `send_data` consists only of TCP network calls
and console prints; in particular it contains no UDP call and no host
report. -/
lemma send_data_ops_kinds (file_data file_name : List Nat)
    (headset_ip : String) (port : Nat) (env : SendEnv) :
    ((send_data file_data file_name headset_ip port env).ops.all
      fun o => Op.isTcpNet o || Op.isConsole o) = true ∧
    ((send_data file_data file_name headset_ip port env).ops.all
      fun o => !(Op.isUdpNet o)) = true ∧
    (send_data file_data file_name headset_ip port env).ops.countP
      Op.isReport = 0 ∧
    (send_data file_data file_name headset_ip port env).ops.countP
      isTerminalReport = 0 := by
  simp only [send_data]
  split
  · refine ⟨?_, ?_, ?_, ?_⟩ <;> rfl
  · split
    · split
      · split
        · split
          · split
            · refine ⟨?_, ?_, ?_, ?_⟩ <;> rfl
            · refine ⟨?_, ?_, ?_, ?_⟩ <;> rfl
          · refine ⟨?_, ?_, ?_, ?_⟩ <;> rfl
        · refine ⟨?_, ?_, ?_, ?_⟩ <;> rfl
      · refine ⟨?_, ?_, ?_, ?_⟩ <;> rfl
    · refine ⟨?_, ?_, ?_, ?_⟩ <;> rfl

/-! ## Claim C2 -/

/-- The selection-stage validations of `execute`: no object selected,
or the active object missing or not among the selected objects. -/
def selectionInvalid (inp : ExecuteInput) : Bool :=
  inp.selected_objects.isEmpty ||
    (match inp.active_object with
     | none => true
     | some a => !(inp.selected_objects.contains a))

/-- C2 counterexample: an invocation with a valid code, a successful
discovery and an empty selection fails the selection validation, yet
three UDP network calls (bind, broadcast, receive) have already been
performed — the validations do not all precede network I/O. -/
theorem C2_cex_selection_checked_after_discovery :
    (execute defaultPrefs
      ⟨[97, 98, 49, 50], [], none, [65], [0], false, false,
       ⟨false, false, [⟨1, discoveryResponseCodes, "10.0.0.7"⟩]⟩,
       ⟨true, true, some successCodes⟩⟩).status = ExecStatus.cancelled ∧
    Op.report Report.noSelectionError ∈
      (execute defaultPrefs
        ⟨[97, 98, 49, 50], [], none, [65], [0], false, false,
         ⟨false, false, [⟨1, discoveryResponseCodes, "10.0.0.7"⟩]⟩,
         ⟨true, true, some successCodes⟩⟩).mainOps ∧
    (execute defaultPrefs
      ⟨[97, 98, 49, 50], [], none, [65], [0], false, false,
       ⟨false, false, [⟨1, discoveryResponseCodes, "10.0.0.7"⟩]⟩,
       ⟨true, true, some successCodes⟩⟩).allOps.countP Op.isNet = 3 := by
  decide

/-- C2 (amended): only the pairing-code validation precedes all
network I/O — a code that does not normalize to 4 characters fails
fast with a validation error, no network call and no worker thread.
The selection and active-object validations run only after discovery:
their violations still cancel the invocation with a synchronous
validation error, no worker thread and no TCP call, but after the
discovery traffic has already happened. -/
theorem C2_code_validation_precedes_network
    (prefs : TransferToHeadsetPreferences) (inp : ExecuteInput) :
    ((normalizeCode inp.headset_connection_code).length ≠ 4 →
       execute prefs inp =
         ⟨.cancelled, [Op.report Report.codeLengthError], []⟩) ∧
    (selectionInvalid inp = true →
       (execute prefs inp).status ≠ ExecStatus.finished ∧
       (execute prefs inp).workerOps = [] ∧
       (execute prefs inp).allOps.countP Op.isTcpNet = 0) := by
  constructor
  · intro hne
    simp only [execute]
    rw [if_pos hne]
  · intro hsel
    simp only [execute, ExecResult.allOps]
    split
    · exact ⟨by simp, rfl, by decide⟩
    · split
      · -- discovery bind raised
        refine ⟨by simp, rfl, ?_⟩
        dsimp only
        simp only [List.countP_append]
        rw [dOps_countP_tcp_eq_zero]
        rfl
      · -- discovery found an address
        split
        · refine ⟨by simp, rfl, ?_⟩
          dsimp only
          simp only [List.countP_append]
          rw [dOps_countP_tcp_eq_zero]
          rfl
        · split
          · refine ⟨by simp, rfl, ?_⟩
            dsimp only
            simp only [List.countP_append]
            rw [dOps_countP_tcp_eq_zero]
            rfl
          · split
            · refine ⟨by simp, rfl, ?_⟩
              dsimp only
              simp only [List.countP_append]
              rw [dOps_countP_tcp_eq_zero]
              rfl
            · split
              · split
                · refine ⟨by simp, rfl, ?_⟩
                  dsimp only
                  simp only [List.countP_append]
                  rw [dOps_countP_tcp_eq_zero]
                  rfl
                · split
                  · refine ⟨by simp, rfl, ?_⟩
                    dsimp only
                    simp only [List.countP_append]
                    rw [dOps_countP_tcp_eq_zero]
                    rfl
                  · -- all validations passed: contradicts `hsel`
                    exact absurd hsel (by simp_all [selectionInvalid])
              · refine ⟨by simp, rfl, ?_⟩
                dsimp only
                simp only [List.countP_append]
                rw [dOps_countP_tcp_eq_zero]
                rfl
      all_goals
        refine ⟨by simp, rfl, ?_⟩
        dsimp only
        simp only [List.countP_append]
        rw [dOps_countP_tcp_eq_zero]
        rfl

/-- Witness for the amended C2: a short code fails fast with zero
network calls, and an empty selection cancels with no TCP call. -/
theorem C2_code_validation_precedes_network_witness :
    execute defaultPrefs
      ⟨[65], [1], some 1, [65], [0], false, false, ⟨false, false, []⟩,
       ⟨true, true, some successCodes⟩⟩ =
      ⟨.cancelled, [Op.report Report.codeLengthError], []⟩ ∧
    ((execute defaultPrefs
        ⟨[65, 66, 49, 50], [], none, [65], [0], false, false,
         ⟨false, false, [⟨1, discoveryResponseCodes, "10.0.0.8"⟩]⟩,
         ⟨true, true, some successCodes⟩⟩).status ≠ ExecStatus.finished ∧
     (execute defaultPrefs
        ⟨[65, 66, 49, 50], [], none, [65], [0], false, false,
         ⟨false, false, [⟨1, discoveryResponseCodes, "10.0.0.8"⟩]⟩,
         ⟨true, true, some successCodes⟩⟩).workerOps = [] ∧
     (execute defaultPrefs
        ⟨[65, 66, 49, 50], [], none, [65], [0], false, false,
         ⟨false, false, [⟨1, discoveryResponseCodes, "10.0.0.8"⟩]⟩,
         ⟨true, true, some successCodes⟩⟩).allOps.countP Op.isTcpNet = 0) :=
  ⟨(C2_code_validation_precedes_network defaultPrefs
      ⟨[65], [1], some 1, [65], [0], false, false, ⟨false, false, []⟩,
       ⟨true, true, some successCodes⟩⟩).1 (by decide),
   (C2_code_validation_precedes_network defaultPrefs
      ⟨[65, 66, 49, 50], [], none, [65], [0], false, false,
       ⟨false, false, [⟨1, discoveryResponseCodes, "10.0.0.8"⟩]⟩,
       ⟨true, true, some successCodes⟩⟩).2 (by decide)⟩

/-! ## Claim C7 -/

/-- C7 counterexample: on a fully successful invocation the caller's
thread performs the three blocking UDP discovery calls itself — the
discovery receive loop does not run on the worker thread. -/
theorem C7_cex_discovery_blocks_caller_thread :
    (execute defaultPrefs
      ⟨[97, 98, 49, 50], [1], some 1, [65], [0], false, false,
       ⟨false, false, [⟨1, discoveryResponseCodes, "192.168.1.42"⟩]⟩,
       ⟨true, true, some successCodes⟩⟩).status = ExecStatus.finished ∧
    Op.net NetOp.udpRecv ∈
      (execute defaultPrefs
        ⟨[97, 98, 49, 50], [1], some 1, [65], [0], false, false,
         ⟨false, false, [⟨1, discoveryResponseCodes, "192.168.1.42"⟩]⟩,
         ⟨true, true, some successCodes⟩⟩).mainOps ∧
    (execute defaultPrefs
      ⟨[97, 98, 49, 50], [1], some 1, [65], [0], false, false,
       ⟨false, false, [⟨1, discoveryResponseCodes, "192.168.1.42"⟩]⟩,
       ⟨true, true, some successCodes⟩⟩).mainOps.countP Op.isUdpNet = 3 := by
  decide

/-- C7 (amended): only the transfer client's connect/send/ack runs on
the per-invocation worker thread — every worker operation is a TCP
call or a console print and no worker operation is a UDP call, while
the discovery broadcast and blocking receive loop (all UDP calls) run
on the caller's thread, which performs no TCP call. -/
theorem C7_only_transfer_on_worker_thread
    (prefs : TransferToHeadsetPreferences) (inp : ExecuteInput) :
    ((execute prefs inp).workerOps.all
      fun o => Op.isTcpNet o || Op.isConsole o) = true ∧
    ((execute prefs inp).workerOps.all fun o => !(Op.isUdpNet o)) = true ∧
    ((execute prefs inp).mainOps.all fun o => !(Op.isTcpNet o)) = true := by
  simp only [execute]
  split
  · exact ⟨rfl, rfl, rfl⟩
  · have hmain : ∀ tail : List Op,
        (tail.all fun o => !(Op.isTcpNet o)) = true →
        ((((discover_headset discoveryPortDefault
              (normalizeCode inp.headset_connection_code)
              inp.denv).netOps.map Op.net) ++ tail).all
          fun o => !(Op.isTcpNet o)) = true := by
      intro tail htail
      rw [List.all_append, dOps_all_not_tcp, htail]
      rfl
    split
    · -- discovery bind raised
      exact ⟨rfl, rfl, dOps_all_not_tcp _ _ _⟩
    · -- discovery found an address
      split
      · exact ⟨rfl, rfl, hmain _ rfl⟩
      · split
        · exact ⟨rfl, rfl, hmain _ rfl⟩
        · split
          · exact ⟨rfl, rfl, hmain _ rfl⟩
          · split
            · split
              · exact ⟨rfl, rfl, hmain _ rfl⟩
              · split
                · exact ⟨rfl, rfl, hmain _ rfl⟩
                · exact ⟨(send_data_ops_kinds _ _ _ _ _).1,
                         (send_data_ops_kinds _ _ _ _ _).2.1, hmain _ rfl⟩
            · exact ⟨rfl, rfl, hmain _ rfl⟩
    all_goals exact ⟨rfl, rfl, hmain _ rfl⟩

/-! ## Claim C9 -/

/-- C9 counterexample: an invocation failing the pairing-code
validation communicates exactly one status to the host — a validation
error — and zero statuses from the terminal set {started,
discovery-failed, transfer-succeeded, transfer-failed}; and on a fully
successful invocation the transfer outcome is only printed on the
worker's console, never reported back to the host. -/
theorem C9_cex_terminal_statuses :
    (execute defaultPrefs
      ⟨[65], [1], some 1, [65], [0], false, false, ⟨false, false, []⟩,
       ⟨true, true, some successCodes⟩⟩).allOps.countP isTerminalReport = 0 ∧
    (execute defaultPrefs
      ⟨[65], [1], some 1, [65], [0], false, false, ⟨false, false, []⟩,
       ⟨true, true, some successCodes⟩⟩).allOps.countP Op.isReport = 1 ∧
    (execute defaultPrefs
      ⟨[97, 98, 49, 50], [1], some 1, [65], [0], false, false,
       ⟨false, false, [⟨1, discoveryResponseCodes, "192.168.1.42"⟩]⟩,
       ⟨true, true, some successCodes⟩⟩).status = ExecStatus.finished ∧
    (execute defaultPrefs
      ⟨[97, 98, 49, 50], [1], some 1, [65], [0], false, false,
       ⟨false, false, [⟨1, discoveryResponseCodes, "192.168.1.42"⟩]⟩,
       ⟨true, true, some successCodes⟩⟩).workerOps.countP Op.isReport = 0 ∧
    Op.consoleMsg ConsoleMsg.successPrint ∈
      (execute defaultPrefs
        ⟨[97, 98, 49, 50], [1], some 1, [65], [0], false, false,
         ⟨false, false, [⟨1, discoveryResponseCodes, "192.168.1.42"⟩]⟩,
         ⟨true, true, some successCodes⟩⟩).workerOps := by decide

/-- C9 (amended): each invocation reports at most one status to the
host — exactly one (a validation error, a discovery failure, an
export/read error, or the started acknowledgment) unless the
invocation raises, in which case zero; the worker thread never reports
to the host, so the transfer outcome reaches only the console; at most
one status from the terminal set is ever communicated. -/
theorem C9_at_most_one_host_report
    (prefs : TransferToHeadsetPreferences) (inp : ExecuteInput) :
    (execute prefs inp).workerOps.countP Op.isReport = 0 ∧
    ((execute prefs inp).status = ExecStatus.raised ∧
       (execute prefs inp).mainOps.countP Op.isReport = 0 ∨
     (execute prefs inp).status ≠ ExecStatus.raised ∧
       (execute prefs inp).mainOps.countP Op.isReport = 1) ∧
    (execute prefs inp).allOps.countP isTerminalReport ≤ 1 := by
  simp only [execute, ExecResult.allOps]
  split
  · exact ⟨rfl, Or.inr ⟨by simp, rfl⟩, by decide⟩
  · split
    · -- discovery bind raised: no host report at all
      refine ⟨rfl, Or.inl ⟨rfl, ?_⟩, ?_⟩
      · dsimp only
        rw [countP_map_net_eq_zero _ _ fun n => rfl]
      · dsimp only
        rw [List.countP_append, countP_map_net_eq_zero _ _ fun n => rfl]
        decide
    · -- discovery found an address
      split
      · refine ⟨rfl, Or.inr ⟨by simp, ?_⟩, ?_⟩
        · dsimp only
          rw [List.countP_append, countP_map_net_eq_zero _ _ fun n => rfl]
          decide
        · dsimp only
          rw [List.countP_append, List.countP_append,
            countP_map_net_eq_zero _ _ fun n => rfl]
          decide
      · split
        · refine ⟨rfl, Or.inr ⟨by simp, ?_⟩, ?_⟩
          · dsimp only
            rw [List.countP_append, countP_map_net_eq_zero _ _ fun n => rfl]
            decide
          · dsimp only
            rw [List.countP_append, List.countP_append,
              countP_map_net_eq_zero _ _ fun n => rfl]
            decide
        · split
          · refine ⟨rfl, Or.inr ⟨by simp, ?_⟩, ?_⟩
            · dsimp only
              rw [List.countP_append, countP_map_net_eq_zero _ _ fun n => rfl]
              decide
            · dsimp only
              rw [List.countP_append, List.countP_append,
                countP_map_net_eq_zero _ _ fun n => rfl]
              decide
          · split
            · split
              · refine ⟨rfl, Or.inr ⟨by simp, ?_⟩, ?_⟩
                · dsimp only
                  rw [List.countP_append, countP_map_net_eq_zero _ _ fun n => rfl]
                  decide
                · dsimp only
                  rw [List.countP_append, List.countP_append,
                    countP_map_net_eq_zero _ _ fun n => rfl]
                  decide
              · split
                · refine ⟨rfl, Or.inr ⟨by simp, ?_⟩, ?_⟩
                  · dsimp only
                    rw [List.countP_append, countP_map_net_eq_zero _ _ fun n => rfl]
                    decide
                  · dsimp only
                    rw [List.countP_append, List.countP_append,
                      countP_map_net_eq_zero _ _ fun n => rfl]
                    decide
                · -- full success: the worker never reports to the host
                  refine ⟨(send_data_ops_kinds _ _ _ _ _).2.2.1,
                          Or.inr ⟨by simp, ?_⟩, ?_⟩
                  · dsimp only
                    rw [List.countP_append, countP_map_net_eq_zero _ _ fun n => rfl]
                    decide
                  · dsimp only
                    rw [List.countP_append, List.countP_append,
                      countP_map_net_eq_zero _ _ fun n => rfl,
                      (send_data_ops_kinds _ _ _ _ _).2.2.2]
                    decide
            · refine ⟨rfl, Or.inr ⟨by simp, ?_⟩, ?_⟩
              · dsimp only
                rw [List.countP_append, countP_map_net_eq_zero _ _ fun n => rfl]
                decide
              · dsimp only
                rw [List.countP_append, List.countP_append,
                  countP_map_net_eq_zero _ _ fun n => rfl]
                decide
    all_goals
      refine ⟨rfl, Or.inr ⟨by simp, ?_⟩, ?_⟩
    all_goals dsimp only
    all_goals try rw [List.countP_append, List.countP_append,
      countP_map_net_eq_zero _ _ fun n => rfl]
    all_goals try rw [List.countP_append,
      countP_map_net_eq_zero _ _ fun n => rfl]
    all_goals decide

/-! ## Claim C10 -/

/-- Does the operation use only the hard-coded default ports and
timeouts of the source (TCP 5000 with 30 s timeout, discovery UDP
5001, listen UDP 5002 with 5 s timeout)? -/
def usesDefaultPorts : Op → Bool
  | .net (.udpBind p t) => p == 5002 && t == 5
  | .net (.udpSend p _) => p == 5001
  | .net (.tcpConnect p t) => p == 5000 && t == 30
  | _ => true

/-- All discovery network calls use the default ports and timeout. -/
lemma dOps_all_default_ports (code : List Nat) (env : DiscoveryEnv) :
    (((discover_headset discoveryPortDefault code env).netOps.map
      Op.net).all usesDefaultPorts) = true := by
  rw [List.all_eq_true]
  intro o ho
  rw [List.mem_map] at ho
  obtain ⟨n, hn, rfl⟩ := ho
  rcases discover_headset_netOps_mem discoveryPortDefault code env n hn with
    rfl | rfl | rfl <;> rfl

/-- All transfer network calls use the default TCP port and timeout. -/
lemma send_data_ops_default_ports (file_data file_name : List Nat)
    (headset_ip : String) (env : SendEnv) :
    ((send_data file_data file_name headset_ip tcpPortDefault env).ops.all
      usesDefaultPorts) = true := by
  simp only [send_data]
  split
  · rfl
  · split
    · split
      · split
        · split
          · split
            · rfl
            · rfl
          · rfl
        · rfl
      · rfl
    · rfl

/-- C10: the operator's behaviour is identical for any two preference
values — the `TransferToHeadsetPreferences` properties are never read —
and every network call uses the hard-coded constants: TCP port 5000
with the 30-second transfer timeout, UDP discovery port 5001, UDP
listen port 5002 with the 5-second discovery timeout. -/
theorem C10_preferences_never_read (p1 p2 : TransferToHeadsetPreferences)
    (inp : ExecuteInput) :
    execute p1 inp = execute p2 inp ∧
    ((execute p1 inp).allOps.all usesDefaultPorts) = true ∧
    tcpPortDefault = 5000 ∧ discoveryPortDefault = 5001 ∧
    listenPortDefault = 5002 ∧ discoveryTimeoutSecs = 5 ∧
    transferTimeoutSecs = 30 := by
  refine ⟨rfl, ?_, rfl, rfl, rfl, rfl, rfl⟩
  simp only [execute, ExecResult.allOps]
  split
  · rfl
  · split <;> (try split) <;> (try split) <;> (try split) <;>
      (try split) <;> (try split) <;> (try split)
    all_goals simp only [List.all_append]
    all_goals rw [dOps_all_default_ports]
    all_goals try rw [send_data_ops_default_ports]
    all_goals rfl

end TransferToHeadset
